import Mathlib

/-!
Verification development for the litwaypickss payment backend.

The definitions below are a shallow embedding of the JavaScript source:

* `src/unnamed/part_004` (`utils/phoneFormatter.js`): `formatLiberianPhone`.
* `src/MoMoCallbackHandler.js`: the `POST /callback` route, its helper
  functions `verifyCallbackSignature`, `processSuccessfulPayment`,
  `processFailedPayment`, `processPendingPayment`, and the in-memory
  transaction store (a JavaScript `Map`).
* `src/routes/payment.routes.js`: the `GET /status/:referenceId` route and
  the duplicated `requestToPay` implementation embedded in that file.
* `src/services/momoService.js`: the `requestToPay` implementation.

JavaScript conventions used throughout the embedding: string-valued
expressions are modelled as `Option String`, where `none` stands for
`null`/`undefined`/absent; `truthy` models JavaScript truthiness of such a
value (the empty string is falsy); `jsOr` models the JavaScript `||`
operator on such values; `orNull` models `x || null`.  Fallible or
throwing code returns `Except Unit`, where `.error ()` models a thrown
exception.  Timestamps (`new Date().toISOString()`) are passed in as an
explicit `now : String` parameter.
-/

set_option autoImplicit false

/-- JavaScript truthiness of a nullable string: `null`/`undefined` and the
empty string are falsy, every other string is truthy. -/
def truthy : Option String → Bool
  | none => false
  | some s => !(s == "")

/-- JavaScript `a || b` on nullable strings. -/
def jsOr (a b : Option String) : Option String :=
  if truthy a then a else b

/-- JavaScript `x || null` on a nullable string. -/
def orNull (a : Option String) : Option String :=
  if truthy a then a else none

/-- JavaScript `a || b` on plain strings (used by the duplicated
`requestToPay`, where the left operand is a non-empty literal). -/
def jsOrS (a b : String) : String :=
  if a == "" then b else a

theorem truthy_orNull (a : Option String) : truthy (orNull a) = truthy a := by
  unfold orNull
  by_cases h : truthy a = true
  · rw [if_pos h]
  · rw [if_neg h]
    simp only [Bool.not_eq_true] at h
    rw [h]
    rfl

theorem orNull_eq_none_of_not_truthy {a : Option String}
    (h : truthy a = false) : orNull a = none := by
  unfold orNull
  simp [h]

theorem jsOr_of_truthy {a : Option String} (b : Option String)
    (h : truthy a = true) : jsOr a b = a := by
  unfold jsOr
  simp [h]

theorem jsOr_of_not_truthy {a : Option String} (b : Option String)
    (h : truthy a = false) : jsOr a b = b := by
  unfold jsOr
  simp [h]

/-!
## Phone normalization (`formatLiberianPhone`, src/unnamed/part_004)

The JavaScript source builds the normalized number from the raw input by
(1) deleting every non-digit character (`replace(/\D/g, "")`), (2) removing
one leading `+` (`replace(/^\+/, "")`), (3) removing all leading zeros
(`replace(/^0+/, "")`), and (4) prepending `231` unless the string already
starts with `231`.  It fails when the input is falsy or when the final
string is not exactly 12 characters long.
-/

/-- One application of `replace(/^\+/, "")`: remove a single leading `+`. -/
def stripLeadingPlus : List Char → List Char
  | '+' :: rest => rest
  | l => l

/-- Core of `formatLiberianPhone`, on the character list of the input. -/
def formatLiberianPhoneDigits (cs : List Char) : List Char :=
  let onlyDigits := cs.filter Char.isDigit
  let noPlus := stripLeadingPlus onlyDigits
  let noZeros := noPlus.dropWhile (fun c => c == '0')
  if List.isPrefixOf ['2', '3', '1'] noZeros then noZeros
  else '2' :: '3' :: '1' :: noZeros

/-- Embedding of `formatLiberianPhone` from `utils/phoneFormatter.js`.
`.error` models the `{ success: false, error }` result, which the
`POST /pay` route answers with HTTP 400 (`BadRequest`). -/
def formatLiberianPhone (phone : String) : Except String String :=
  if phone = "" then .error "Phone number is required"
  else
    let formatted := formatLiberianPhoneDigits phone.data
    if formatted.length ≠ 12 then
      .error ("Invalid Liberia MSISDN: " ++ String.mk formatted ++
        ". Must be 12 digits (231 + 9-digit number)")
    else .ok (String.mk formatted)

theorem take_length_of_isPrefixOf :
    ∀ {p l : List Char}, List.isPrefixOf p l = true → l.take p.length = p
  | [], _, _ => by simp
  | a :: ps, [], h => by simp [List.isPrefixOf] at h
  | a :: ps, b :: ls, h => by
    simp only [List.isPrefixOf, Bool.and_eq_true, beq_iff_eq] at h
    obtain ⟨rfl, h2⟩ := h
    simp [List.take_succ_cons, take_length_of_isPrefixOf h2]

theorem mem_of_mem_dropWhile {c : Char} (p : Char → Bool) :
    ∀ {l : List Char}, c ∈ l.dropWhile p → c ∈ l
  | [], h => by simp [List.dropWhile] at h
  | a :: ls, h => by
    rw [List.dropWhile_cons] at h
    by_cases hp : p a = true
    · simp only [hp, if_true] at h
      exact List.mem_cons_of_mem _ (mem_of_mem_dropWhile p h)
    · simp only [hp] at h
      simp at h
      rcases h with h | h
      · exact h ▸ List.mem_cons_self _ _
      · exact List.mem_cons_of_mem _ h

theorem mem_of_mem_stripLeadingPlus {c : Char} {l : List Char}
    (h : c ∈ stripLeadingPlus l) : c ∈ l := by
  unfold stripLeadingPlus at h
  split at h
  · exact List.mem_cons_of_mem _ h
  · exact h

theorem formatLiberianPhoneDigits_all_digits (cs : List Char) :
    ∀ c ∈ formatLiberianPhoneDigits cs, c.isDigit = true := by
  intro c hc
  simp only [formatLiberianPhoneDigits] at hc
  have base : ∀ d : Char,
      d ∈ (stripLeadingPlus (cs.filter Char.isDigit)).dropWhile (fun x => x == '0') →
      d.isDigit = true := by
    intro d hd
    exact (List.mem_filter.mp
      (mem_of_mem_stripLeadingPlus (mem_of_mem_dropWhile _ hd))).2
  by_cases hpre : List.isPrefixOf ['2', '3', '1']
      ((stripLeadingPlus (cs.filter Char.isDigit)).dropWhile (fun x => x == '0')) = true
  · rw [if_pos hpre] at hc
    exact base c hc
  · rw [if_neg hpre] at hc
    simp only [List.mem_cons] at hc
    rcases hc with rfl | rfl | rfl | hc
    · decide
    · decide
    · decide
    · exact base c hc

theorem formatLiberianPhoneDigits_take3 (cs : List Char) :
    (formatLiberianPhoneDigits cs).take 3 = ['2', '3', '1'] := by
  simp only [formatLiberianPhoneDigits]
  split
  · rename_i hpre
    exact take_length_of_isPrefixOf hpre
  · rfl

instance {α β : Type} [DecidableEq α] [DecidableEq β] : DecidableEq (Except α β) :=
  fun a b =>
    match a, b with
    | .ok x, .ok y =>
      if h : x = y then .isTrue (by rw [h])
      else .isFalse (by intro hc; injection hc; contradiction)
    | .error x, .error y =>
      if h : x = y then .isTrue (by rw [h])
      else .isFalse (by intro hc; injection hc; contradiction)
    | .ok _, .error _ => .isFalse (by intro hc; injection hc)
    | .error _, .ok _ => .isFalse (by intro hc; injection hc)

/-- What a successful normalization must look like, and when normalization
must fail: a 12-character digit string carrying the `231` country prefix,
or a `BadRequest`-style error exactly when the normalized form does not
have 12 characters. -/
def NormalizedPhoneSpec (phone : String) : Prop :=
  match formatLiberianPhone phone with
  | .ok s => s.length = 12 ∧ s.data.take 3 = ['2', '3', '1'] ∧
      ∀ c ∈ s.data, c.isDigit = true
  | .error _ => (formatLiberianPhoneDigits phone.data).length ≠ 12

/-- C8: for every non-empty phone input, `formatLiberianPhone` either
returns a string of exactly 12 digits beginning with `231`, or fails
(BadRequest) exactly because the normalized length is not 12; and the
input `0770123456` normalizes to `231770123456`. -/
theorem phone_normalization_is_12_digit_231 :
    (∀ phone : String, phone ≠ "" → NormalizedPhoneSpec phone) ∧
    formatLiberianPhone "0770123456" = .ok "231770123456" := by
  constructor
  · intro phone hne
    unfold NormalizedPhoneSpec
    simp only [formatLiberianPhone]
    rw [if_neg hne]
    by_cases hlen : (formatLiberianPhoneDigits phone.data).length = 12
    · rw [if_neg (not_not_intro hlen)]
      exact ⟨hlen, formatLiberianPhoneDigits_take3 _,
        formatLiberianPhoneDigits_all_digits _⟩
    · rw [if_pos hlen]
      exact hlen
  · decide

/-- Witness: the general statement of C8 applied at the concrete input
`0770123456`. -/
theorem phone_normalization_witness : NormalizedPhoneSpec "0770123456" :=
  phone_normalization_is_12_digit_231.1 "0770123456" (by decide)

/-!
## Callback handling (`src/MoMoCallbackHandler.js`)

Data model for the `POST /callback` route.  Every string-valued field of
the JSON payload and of the in-memory transaction record is an
`Option String` (`none` = absent/null).  The persistent store (Supabase
`orders` table) is a list of rows; `DbState.offline` models a missing
client (`supabase === null`), `DbState.broken` models a client whose
awaited calls reject (throw).
-/

/-- The `payer` object of a callback payload. -/
structure Payer where
  partyIdType : Option String := none
  partyId : Option String := none
deriving DecidableEq

/-- The JSON body of a `POST /callback` request. -/
structure CallbackBody where
  financialTransactionId : Option String := none
  externalId : Option String := none
  referenceId : Option String := none
  amount : Option String := none
  currency : Option String := none
  status : Option String := none
  payer : Option Payer := none
  payeeNote : Option String := none
  payerMessage : Option String := none
  reason : Option String := none
deriving DecidableEq

/-- An in-memory transaction record, as stored in the shared `Map`. -/
structure Txn where
  referenceId : Option String := none
  orderId : Option String := none
  financialTransactionId : Option String := none
  externalId : Option String := none
  amount : Option String := none
  currency : Option String := none
  status : Option String := none
  payer : Option Payer := none
  payerPhone : Option String := none
  payerIdType : Option String := none
  payeeNote : Option String := none
  payerMessage : Option String := none
  reason : Option String := none
  failureReason : Option String := none
  createdAt : Option String := none
  processedAt : Option String := none
  lastUpdated : Option String := none
  callbackReceivedAt : Option String := none
  rawCallbackPayload : Option CallbackBody := none
deriving DecidableEq

/-- The shared in-memory transaction store (`transactionStore`, a JS `Map`
from reference id to record). -/
abbrev Store := List (String × Txn)

/-- `Map.get`. -/
def storeGet : Store → String → Option Txn
  | [], _ => none
  | p :: rest, k => if p.1 == k then some p.2 else storeGet rest k

/-- `Map.set`: replace in place, or append a new entry. -/
def storeSet : Store → String → Txn → Store
  | [], k, v => [(k, v)]
  | p :: rest, k, v => if p.1 == k then (k, v) :: rest else p :: storeSet rest k v

theorem storeGet_storeSet_self (s : Store) (k : String) (v : Txn) :
    storeGet (storeSet s k v) k = some v := by
  induction s with
  | nil => simp [storeGet, storeSet]
  | cons p rest ih =>
    by_cases h : p.1 == k
    · simp [storeGet, storeSet, h]
    · simp only [storeSet, h, Bool.false_eq_true, if_false, storeGet]
      exact ih

/-- A row of the Supabase `orders` table (only the columns the callback
and status routes read or write). -/
structure DbOrder where
  id : Option String := none
  reference_id : Option String := none
  external_id : Option String := none
  payment_status : Option String := none
  payment_confirmed_at : Option String := none
  financial_transaction_id : Option String := none
  failure_reason : Option String := none
  callback_received : Bool := false
  callback_data : Option Txn := none
  last_status_check : Option String := none
  created_at : Option String := none
deriving DecidableEq

/-- The persistent store: absent client, working client over a list of
rows, or a client whose awaited calls throw. -/
inductive DbState
  | offline
  | online (orders : List DbOrder)
  | broken
deriving DecidableEq

/-- Supabase `.or("reference_id.eq.TID,external_id.eq.EID").single()` used
by the callback lookup: the row if exactly one matches, otherwise `null`
(`.single()` reports an error which the code ignores).  A null
`externalId` is interpolated into the filter string as the literal text
`null`, so it compares against the string `"null"`. -/
def dbSelectOrSingle (orders : List DbOrder) (transactionId : String)
    (externalId : Option String) : Option DbOrder :=
  let eid := match externalId with
    | some e => e
    | none => "null"
  let ms := orders.filter
    (fun o => o.reference_id == some transactionId || o.external_id == some eid)
  if ms.length == 1 then ms.head? else none

/-- Supabase `.update(f).eq("reference_id", rid).select().single()`: apply
the update to every matching row; the result row is returned only when
exactly one row matched (`dbError` otherwise, which the handlers only
log). -/
def dbUpdateByRef (orders : List DbOrder) (rid : String)
    (f : DbOrder → DbOrder) : List DbOrder × Option DbOrder :=
  let updated := orders.map (fun o => if o.reference_id == some rid then f o else o)
  let ms := updated.filter (fun o => o.reference_id == some rid)
  (updated, if ms.length == 1 then ms.head? else none)

/-- Side-effect hooks fired by the per-status handlers. -/
inductive Hook
  | listeners
  | confirmEmail
  | inventory
  | loyalty
  | fulfillment
  | failNotify
  | analytics
deriving DecidableEq

/-- One firing of a side-effect hook, tagged with the reference id of the
record it was fired for. -/
structure Event where
  hook : Hook
  refId : String
deriving DecidableEq

/-- An inbound `POST /callback` HTTP request: the two headers the route
reads, and the JSON body. -/
structure CallbackRequest where
  headerReferenceId : Option String := none
  headerSignature : Option String := none
  body : CallbackBody := {}
deriving DecidableEq

/-- The HTTP response of `POST /callback`: 400, 401, or 200 with a
`success` flag in the body. -/
inductive CallbackResponse
  | badRequest
  | unauthorized
  | ok (success : Bool)
deriving DecidableEq

/-- Embedding of `verifyCallbackSignature`: skip verification (accept)
when the signature or the secret is falsy; otherwise compare the
signature with an HMAC-SHA256 hex digest of the serialized payload.  The
digest function is a parameter of the model.  `crypto.timingSafeEqual`
throws when the two buffers have different lengths, modelled by
`.error ()`. -/
def verifyCallbackSignature (hmacHex : String → CallbackBody → String)
    (payload : CallbackBody) (signature secret : Option String) :
    Except Unit Bool :=
  if !(truthy signature) || !(truthy secret) then .ok true
  else
    let expected := hmacHex (secret.getD "") payload
    let sig := signature.getD ""
    if sig.length == expected.length then .ok (sig == expected)
    else .error ()

/-- The signature check of the route: `verifyCallbackSignature` is invoked
only when both `MOMO_CALLBACK_SECRET` and the `x-momo-signature` header
are truthy (`if (secret && signature)`). -/
def signatureGate (hmacHex : String → CallbackBody → String)
    (secret : Option String) (req : CallbackRequest) : Except Unit Bool :=
  if truthy secret && truthy req.headerSignature then
    verifyCallbackSignature hmacHex req.body req.headerSignature secret
  else .ok true

/-- The values the route extracts from the headers and body
(lines 538-555 of `MoMoCallbackHandler.js`). -/
structure Extracted where
  financialTransactionId : Option String
  externalId : Option String
  referenceId : Option String
  amount : Option String
  currency : Option String
  status : Option String
  payer : Payer
  payerIdType : Option String
  payerPhone : Option String
  payeeNote : Option String
  payerMessage : Option String
  reason : Option String
deriving DecidableEq

/-- Field extraction: each body field is read as `field || null`; the
reference id is `headers["x-reference-id"] || body.referenceId ||
externalId` (with `externalId` the already-extracted value); the payer
object is `body.payer || an empty object`. -/
def extractCallback (headerReferenceId : Option String) (b : CallbackBody) :
    Extracted :=
  let financialTransactionId := orNull b.financialTransactionId
  let externalId := orNull b.externalId
  let referenceId := jsOr headerReferenceId (jsOr b.referenceId externalId)
  let payer := b.payer.getD {}
  { financialTransactionId := financialTransactionId
    externalId := externalId
    referenceId := referenceId
    amount := orNull b.amount
    currency := orNull b.currency
    status := orNull b.status
    payer := payer
    payerIdType := orNull payer.partyIdType
    payerPhone := orNull payer.partyId
    payeeNote := orNull b.payeeNote
    payerMessage := orNull b.payerMessage
    reason := orNull b.reason }

/-- The transaction id the route keys everything by:
`referenceId || externalId || financialTransactionId` over the extracted
values. -/
def resolveTransactionId (headerReferenceId : Option String)
    (b : CallbackBody) : Option String :=
  let e := extractCallback headerReferenceId b
  jsOr e.referenceId (jsOr e.externalId e.financialTransactionId)

/-- Record lookup (lines 604-637): in-memory store first; on a miss, the
database by reference id OR external id when a client exists (a broken
client throws here); otherwise a fresh minimal record is synthesized. -/
def lookupTransaction (now : String) (db : DbState) (store : Store)
    (transactionId : String) (externalId : Option String) :
    Except Unit Txn :=
  match storeGet store transactionId with
  | some t => .ok t
  | none =>
    match db with
    | .broken => .error ()
    | .online orders =>
      match dbSelectOrSingle orders transactionId externalId with
      | some order =>
        .ok { referenceId := jsOr order.reference_id (some transactionId)
              orderId := order.id
              status := order.payment_status
              createdAt := order.created_at }
      | none => .ok { referenceId := some transactionId, createdAt := some now }
    | .offline => .ok { referenceId := some transactionId, createdAt := some now }

/-- The merge (lines 639-662): spread the existing record, then overwrite
every callback-named field with the extracted inbound value — including
`null` values — and stamp `referenceId := transactionId`,
`callbackReceivedAt` and `rawCallbackPayload`. -/
def mergeTransaction (t : Txn) (transactionId : String) (now : String)
    (e : Extracted) (raw : CallbackBody) : Txn :=
  { t with
    referenceId := some transactionId
    financialTransactionId := e.financialTransactionId
    externalId := e.externalId
    amount := e.amount
    currency := e.currency
    status := e.status
    payer := some e.payer
    payerPhone := e.payerPhone
    payerIdType := e.payerIdType
    payeeNote := e.payeeNote
    payerMessage := e.payerMessage
    reason := e.reason
    callbackReceivedAt := some now
    rawCallbackPayload := some raw }

/-- A database update guarded by `if (supabase)`: a no-op offline, a throw
when the client is broken. -/
def dbMaybeUpdate (db : DbState) (rid : String) (f : DbOrder → DbOrder) :
    Except Unit DbState :=
  match db with
  | .offline => .ok .offline
  | .broken => .error ()
  | .online orders => .ok (.online (dbUpdateByRef orders rid f).1)

/-- Embedding of `processSuccessfulPayment`: update the database row (if
connected), stamp the in-memory record `SUCCESSFUL`, store it, then fire
listener notification, confirmation email, inventory update, loyalty
award and fulfillment trigger (the hook stubs never throw). -/
def processSuccessfulPayment (now : String) (db : DbState) (store : Store)
    (t : Txn) : Except Unit (DbState × Store × List Event) :=
  match dbMaybeUpdate db (t.referenceId.getD "") (fun o =>
      { o with payment_status := some "SUCCESSFUL"
               payment_confirmed_at := some now
               financial_transaction_id := orNull t.financialTransactionId
               callback_received := true
               callback_data := some t
               last_status_check := some now }) with
  | .error e => .error e
  | .ok db' =>
    let t' := { t with status := some "SUCCESSFUL", processedAt := some now }
    let key := t'.referenceId.getD ""
    .ok (db', storeSet store key t',
      [⟨.listeners, key⟩, ⟨.confirmEmail, key⟩, ⟨.inventory, key⟩,
       ⟨.loyalty, key⟩, ⟨.fulfillment, key⟩])

/-- Embedding of `processFailedPayment`: update the database row (if
connected), stamp the in-memory record `FAILED` with
`failureReason = reason || "Unknown"`, store it, then fire listener
notification, failure notification and analytics logging. -/
def processFailedPayment (now : String) (db : DbState) (store : Store)
    (t : Txn) (reason : Option String) :
    Except Unit (DbState × Store × List Event) :=
  match dbMaybeUpdate db (t.referenceId.getD "") (fun o =>
      { o with payment_status := some "FAILED"
               failure_reason := jsOr reason (some "Unknown")
               callback_received := true
               callback_data := some t
               last_status_check := some now }) with
  | .error e => .error e
  | .ok db' =>
    let t' := { t with status := some "FAILED"
                       failureReason := jsOr reason (some "Unknown")
                       processedAt := some now }
    let key := t'.referenceId.getD ""
    .ok (db', storeSet store key t',
      [⟨.listeners, key⟩, ⟨.failNotify, key⟩, ⟨.analytics, key⟩])

/-- Embedding of `processPendingPayment`: update the database row (if
connected), stamp the in-memory record `PENDING` (also for `CREATED`
callbacks), store it, and notify listeners only. -/
def processPendingPayment (now : String) (db : DbState) (store : Store)
    (t : Txn) : Except Unit (DbState × Store × List Event) :=
  match dbMaybeUpdate db (t.referenceId.getD "") (fun o =>
      { o with payment_status := some "PENDING"
               callback_received := true
               callback_data := some t
               last_status_check := some now }) with
  | .error e => .error e
  | .ok db' =>
    let t' := { t with status := some "PENDING", lastUpdated := some now }
    let key := t'.referenceId.getD ""
    .ok (db', storeSet store key t', [⟨.listeners, key⟩])

/-- The `switch (status)` of the route: terminal and pending handlers, and
the default arm that only writes the merged record to the in-memory
store. -/
def dispatchStatus (now : String) (db : DbState) (store : Store)
    (transactionId : String) (t : Txn) (status reason : Option String) :
    Except Unit (DbState × Store × List Event) :=
  match status with
  | some "SUCCESSFUL" => processSuccessfulPayment now db store t
  | some "FAILED" => processFailedPayment now db store t reason
  | some "PENDING" => processPendingPayment now db store t
  | some "CREATED" => processPendingPayment now db store t
  | _ => .ok (db, storeSet store transactionId t, [])

/-- Embedding of the `POST /callback` route: extract and validate the
identifiers (400 when none is truthy), run the signature gate (401 on a
verified mismatch), look the record up, merge, dispatch on the status,
and answer 200.  A thrown exception anywhere in the try block is caught
and answered with 200 and `success: false`, leaving the state as it was
at the throw point (every modelled throw happens before a state write). -/
def handleCallback (secret : Option String)
    (hmacHex : String → CallbackBody → String) (now : String)
    (db : DbState) (store : Store) (req : CallbackRequest) :
    CallbackResponse × DbState × Store × List Event :=
  let e := extractCallback req.headerReferenceId req.body
  if !(truthy e.referenceId) && !(truthy e.externalId) &&
      !(truthy e.financialTransactionId) then
    (.badRequest, db, store, [])
  else
    let transactionId :=
      (resolveTransactionId req.headerReferenceId req.body).getD ""
    match signatureGate hmacHex secret req with
    | .error _ => (.ok false, db, store, [])
    | .ok false => (.unauthorized, db, store, [])
    | .ok true =>
      match lookupTransaction now db store transactionId e.externalId with
      | .error _ => (.ok false, db, store, [])
      | .ok existing =>
        let t := mergeTransaction existing transactionId now e req.body
        match dispatchStatus now db store transactionId t e.status e.reason with
        | .error _ => (.ok false, db, store, [])
        | .ok (db', store', evs) => (.ok true, db', store', evs)

/-- A sequence of callback deliveries, threading the database and the
in-memory store and collecting every fired hook. -/
def runCallbacks (secret : Option String)
    (hmacHex : String → CallbackBody → String) (now : String) :
    DbState → Store → List CallbackRequest → DbState × Store × List Event
  | db, store, [] => (db, store, [])
  | db, store, r :: rs =>
    let out := handleCallback secret hmacHex now db store r
    let rest := runCallbacks secret hmacHex now out.2.1 out.2.2.1 rs
    (rest.1, rest.2.1, out.2.2.2 ++ rest.2.2)

/-!
## Status polling (`GET /status/:referenceId`, src/routes/payment.routes.js)
-/

/-- The transaction object returned by the remote payment API for a
reference id (`fetchTransactionDetails` returns `null` on any error). -/
structure RemoteTxn where
  status : String
  financialTransactionId : Option String := none
deriving DecidableEq

/-- The responses of `GET /status/:referenceId`, tagged by `source`. -/
inductive StatusResponse
  | okDatabase (order : DbOrder)
  | okCache (status : String)
  | okMomoApi (status : String)
  | notFound
  | serverError
deriving DecidableEq

/-- Supabase `.select("*").eq("reference_id", rid).single()`: the row when
exactly one matches, otherwise an error (modelled as `none`). -/
def dbFindSingleByRef (orders : List DbOrder) (rid : String) :
    Option DbOrder :=
  let ms := orders.filter (fun o => o.reference_id == some rid)
  if ms.length == 1 then ms.head? else none

/-- The part of the status route after the database-first check: cache
lookup, token acquisition (a failure throws, answered 500), remote poll,
then the database/cache refresh and the `momo_api` response, or the
cache fallback, or 404. -/
def statusAfterDbCheck (db : DbState) (cache : Store) (tokenOk : Bool)
    (remote : Option RemoteTxn) (now : String) (referenceId : String) :
    StatusResponse × DbState × Store :=
  let cached := storeGet cache referenceId
  if !tokenOk then (.serverError, db, cache)
  else
    match remote with
    | none =>
      match cached with
      | some c => (.okCache ((jsOr c.status (some "PENDING")).getD ""), db, cache)
      | none => (.notFound, db, cache)
    | some txn =>
      let db' :=
        match db with
        | .online orders =>
          DbState.online ((dbUpdateByRef orders referenceId (fun o =>
            let o1 := { o with payment_status := some txn.status
                               last_status_check := some now }
            let o2 :=
              if truthy txn.financialTransactionId then
                { o1 with financial_transaction_id := txn.financialTransactionId }
              else o1
            if txn.status == "SUCCESSFUL" then
              { o2 with payment_confirmed_at := some now }
            else o2)).1)
        | d => d
      let cache' :=
        match cached with
        | some c => storeSet cache referenceId { c with status := some txn.status }
        | none => cache
      (.okMomoApi txn.status, db', cache')

/-- Embedding of the `GET /status/:referenceId` route: database first (a
single row in a terminal payment status is answered immediately from the
database; a non-terminal or missing row falls through), then the remote
poll with cache fallback, then 404. -/
def statusRoute (db : DbState) (cache : Store) (tokenOk : Bool)
    (remote : Option RemoteTxn) (now : String) (referenceId : String) :
    StatusResponse × DbState × Store :=
  match db with
  | .broken => (.serverError, db, cache)
  | .offline => statusAfterDbCheck .offline cache tokenOk remote now referenceId
  | .online orders =>
    match dbFindSingleByRef orders referenceId with
    | some order =>
      if order.payment_status == some "SUCCESSFUL" ||
          order.payment_status == some "FAILED" then
        (.okDatabase order, .online orders, cache)
      else statusAfterDbCheck (.online orders) cache tokenOk remote now referenceId
    | none => statusAfterDbCheck (.online orders) cache tokenOk remote now referenceId

/-- A persistent-store record in a terminal payment status, as the
database-first branch of the status route recognizes it. -/
def dbTerminalHit (db : DbState) (rid : String) : Bool :=
  match db with
  | .online orders =>
    match dbFindSingleByRef orders rid with
    | some o => o.payment_status == some "SUCCESSFUL" ||
        o.payment_status == some "FAILED"
    | none => false
  | _ => false

/-!
## The two `requestToPay` implementations (C7)

`src/services/momoService.js` builds the request-to-pay body from the
caller-supplied `details`; the copy embedded in
`src/routes/payment.routes.js` hardcodes the amount (`"1.00"`), the
currency (`"USD"`), and the payer message (the `||` falls back to
`details.message` only if the literal were empty).
-/

/-- The `details` argument of `requestToPay` (the amount is passed through
`toString()` by both implementations, modelled as already a string). -/
structure RtpDetails where
  amount : String
  currency : String
  process_id : String
  phone_no : String
  message : String
deriving DecidableEq

/-- The JSON body of the `requesttopay` network call. -/
structure RtpBody where
  amount : String
  currency : String
  externalId : String
  partyIdType : String
  partyId : String
  payerMessage : String
  payeeNote : String
deriving DecidableEq

/-- Request body built by `requestToPay` in `src/services/momoService.js`. -/
def momoServiceRequestToPayBody (details : RtpDetails) : RtpBody :=
  { amount := details.amount
    currency := details.currency
    externalId := details.process_id
    partyIdType := "MSISDN"
    partyId := details.phone_no
    payerMessage := details.message
    payeeNote := details.message }

/-- Request body built by the `requestToPay` copy embedded in
`src/routes/payment.routes.js` (the caller-supplied amount line is
commented out in the source and replaced by the literal `"1.00"`). -/
def paymentRoutesRequestToPayBody (details : RtpDetails) : RtpBody :=
  { amount := "1.00"
    currency := "USD"
    externalId := details.process_id
    partyIdType := "MSISDN"
    partyId := details.phone_no
    payerMessage := jsOrS "Payment for Litway Picks" details.message
    payeeNote := jsOrS "Payment for Litway Picks" details.message }

/-!
## Infrastructure lemmas about the callback route
-/

theorem truthy_some_of_ne {k : String} (h : ¬k = "") :
    truthy (some k) = true := by
  simp [truthy, h]

theorem ne_none_of_truthy {a : Option String} (h : truthy a = true) :
    a ≠ none := by
  intro hn
  rw [hn] at h
  simp [truthy] at h

/-- The 400 guard of the route holds exactly when no identifier resolves. -/
theorem resolveTransactionId_eq_none_iff (hdr : Option String)
    (b : CallbackBody) :
    resolveTransactionId hdr b = none ↔
      (!(truthy (extractCallback hdr b).referenceId) &&
        !(truthy (extractCallback hdr b).externalId) &&
        !(truthy (extractCallback hdr b).financialTransactionId)) = true := by
  constructor
  · intro h
    unfold resolveTransactionId at h
    by_cases h1 : truthy (extractCallback hdr b).referenceId = true
    · rw [jsOr_of_truthy _ h1] at h
      exact absurd h (ne_none_of_truthy h1)
    · rw [Bool.not_eq_true] at h1
      rw [jsOr_of_not_truthy _ h1] at h
      by_cases h2 : truthy (extractCallback hdr b).externalId = true
      · rw [jsOr_of_truthy _ h2] at h
        exact absurd h (ne_none_of_truthy h2)
      · rw [Bool.not_eq_true] at h2
        rw [jsOr_of_not_truthy _ h2] at h
        have h3 : truthy (extractCallback hdr b).financialTransactionId = false := by
          rw [h]; rfl
        simp [h1, h2, h3]
  · intro h
    simp only [Bool.and_eq_true, Bool.not_eq_eq_eq_not, Bool.not_true] at h
    obtain ⟨⟨h1, h2⟩, h3⟩ := h
    unfold resolveTransactionId
    rw [jsOr_of_not_truthy _ h1, jsOr_of_not_truthy _ h2]
    have : (extractCallback hdr b).financialTransactionId =
        orNull b.financialTransactionId := rfl
    rw [this] at h3 ⊢
    rw [truthy_orNull] at h3
    exact orNull_eq_none_of_not_truthy h3

/-- Characterization of `handleCallback` when an identifier resolves, the
signature gate accepts, and the lookup returns a record: the route merges
and dispatches. -/
theorem handleCallback_resolved (secret : Option String)
    (hmacHex : String → CallbackBody → String) (now : String) (db : DbState)
    (store : Store) (req : CallbackRequest) (tid : String) (t0 : Txn)
    (hres : resolveTransactionId req.headerReferenceId req.body = some tid)
    (hsig : signatureGate hmacHex secret req = .ok true)
    (hlook : lookupTransaction now db store tid
      (extractCallback req.headerReferenceId req.body).externalId = .ok t0) :
    handleCallback secret hmacHex now db store req =
      (match dispatchStatus now db store tid
          (mergeTransaction t0 tid now
            (extractCallback req.headerReferenceId req.body) req.body)
          (extractCallback req.headerReferenceId req.body).status
          (extractCallback req.headerReferenceId req.body).reason with
        | .error _ => (.ok false, db, store, [])
        | .ok (db', store', evs) => (.ok true, db', store', evs)) := by
  have hguard : (!(truthy (extractCallback req.headerReferenceId req.body).referenceId) &&
      !(truthy (extractCallback req.headerReferenceId req.body).externalId) &&
      !(truthy (extractCallback req.headerReferenceId req.body).financialTransactionId)) = false := by
    cases hg : (!(truthy (extractCallback req.headerReferenceId req.body).referenceId) &&
      !(truthy (extractCallback req.headerReferenceId req.body).externalId) &&
      !(truthy (extractCallback req.headerReferenceId req.body).financialTransactionId)) with
    | false => rfl
    | true =>
      have := (resolveTransactionId_eq_none_iff req.headerReferenceId req.body).mpr hg
      rw [hres] at this
      exact absurd this (by simp)
  unfold handleCallback
  simp only [hguard, Bool.false_eq_true, if_false, hres, Option.getD_some, hsig, hlook]

/-- A truthy `x-reference-id` header resolves to itself. -/
theorem resolveTransactionId_of_truthy_header {k : String} (b : CallbackBody)
    (h : ¬k = "") : resolveTransactionId (some k) b = some k := by
  have htr : truthy (some k) = true := truthy_some_of_ne h
  have he : (extractCallback (some k) b).referenceId = some k := by
    unfold extractCallback
    simp only []
    exact jsOr_of_truthy _ htr
  simp only [resolveTransactionId]
  rw [he]
  exact jsOr_of_truthy _ htr

/-- A store hit short-circuits the lookup. -/
theorem lookupTransaction_of_hit {store : Store} {tid : String} {t : Txn}
    (now : String) (db : DbState) (eid : Option String)
    (hhit : storeGet store tid = some t) :
    lookupTransaction now db store tid eid = .ok t := by
  unfold lookupTransaction
  rw [hhit]

theorem dispatchStatus_pending (now : String) (db : DbState) (store : Store)
    (tid : String) (t : Txn) (r : Option String) :
    dispatchStatus now db store tid t (some "PENDING") r =
      processPendingPayment now db store t := rfl

theorem dispatchStatus_created (now : String) (db : DbState) (store : Store)
    (tid : String) (t : Txn) (r : Option String) :
    dispatchStatus now db store tid t (some "CREATED") r =
      processPendingPayment now db store t := rfl

theorem dispatchStatus_successful (now : String) (db : DbState) (store : Store)
    (tid : String) (t : Txn) (r : Option String) :
    dispatchStatus now db store tid t (some "SUCCESSFUL") r =
      processSuccessfulPayment now db store t := rfl

theorem dispatchStatus_failed (now : String) (db : DbState) (store : Store)
    (tid : String) (t : Txn) (r : Option String) :
    dispatchStatus now db store tid t (some "FAILED") r =
      processFailedPayment now db store t r := rfl

/-- On a working or absent database client, `processPendingPayment` writes
the record back with status `PENDING`. -/
theorem processPendingPayment_store (now : String) (db : DbState)
    (store : Store) (t : Txn) (hdb : db ≠ .broken) :
    ∃ db' evs, processPendingPayment now db store t =
      .ok (db', storeSet store (t.referenceId.getD "")
        { t with status := some "PENDING", lastUpdated := some now }, evs) := by
  cases db with
  | broken => exact absurd rfl hdb
  | offline => exact ⟨_, _, rfl⟩
  | online orders => exact ⟨_, _, rfl⟩

theorem mergeTransaction_referenceId (t : Txn) (tid : String) (now : String)
    (e : Extracted) (raw : CallbackBody) :
    (mergeTransaction t tid now e raw).referenceId = some tid := rfl

/-- C1 (amended): there is no terminal guard in the code — once the stored
status of a record is `SUCCESSFUL` or `FAILED`, a later accepted callback
carrying status `PENDING` simply overwrites the stored status with
`PENDING` (the same happens for `CREATED`, which the pending handler also
stores as `PENDING`). -/
theorem terminal_status_overwritten_by_pending_callback
    (secret : Option String) (hmacHex : String → CallbackBody → String)
    (now : String) (db : DbState) (store : Store) (req : CallbackRequest)
    (t : Txn) (k : String)
    (hdb : db ≠ .broken)
    (hk : req.headerReferenceId = some k) (hk0 : ¬k = "")
    (hst : req.body.status = some "PENDING")
    (hhit : storeGet store k = some t)
    (_hterm : t.status = some "SUCCESSFUL" ∨ t.status = some "FAILED")
    (hsig : signatureGate hmacHex secret req = .ok true) :
    ∃ t', storeGet (handleCallback secret hmacHex now db store req).2.2.1 k =
        some t' ∧ t'.status = some "PENDING" := by
  have hres : resolveTransactionId req.headerReferenceId req.body = some k := by
    rw [hk]
    exact resolveTransactionId_of_truthy_header req.body hk0
  have hlook : lookupTransaction now db store k
      (extractCallback req.headerReferenceId req.body).externalId = .ok t :=
    lookupTransaction_of_hit now db _ hhit
  rw [handleCallback_resolved secret hmacHex now db store req k t hres hsig hlook]
  have hstat : (extractCallback req.headerReferenceId req.body).status =
      some "PENDING" := by
    unfold extractCallback
    simp only []
    rw [hst]
    rfl
  rw [hstat, dispatchStatus_pending]
  obtain ⟨db', evs, hp⟩ := processPendingPayment_store now db store
    (mergeTransaction t k now (extractCallback req.headerReferenceId req.body)
      req.body) hdb
  rw [hp]
  simp only []
  rw [mergeTransaction_referenceId]
  exact ⟨_, storeGet_storeSet_self _ _ _, rfl⟩

/-- Witness for the amended C1 theorem at a concrete input. -/
theorem terminal_status_overwritten_witness :
    ∃ t', storeGet (handleCallback none (fun _ _ => "") "T2" .offline
        [("R", { referenceId := some "R", status := some "SUCCESSFUL" })]
        { headerReferenceId := some "R",
          body := { status := some "PENDING" } }).2.2.1 "R" =
      some t' ∧ t'.status = some "PENDING" :=
  terminal_status_overwritten_by_pending_callback none (fun _ _ => "") "T2"
    .offline _ _ { referenceId := some "R", status := some "SUCCESSFUL" } "R"
    (by decide) rfl (by decide) rfl (by decide) (Or.inl rfl) rfl

/-- C1 (counterexample): deliver `SUCCESSFUL` and then `PENDING` for the
same reference id `R` to the callback route (offline mode, no secret):
after the first delivery the stored status is `SUCCESSFUL`, and the
second delivery — contrary to the claim — changes it back to `PENDING`. -/
theorem pending_callback_regresses_terminal_status :
    (storeGet (runCallbacks none (fun _ _ => "") "T" .offline []
        [{ headerReferenceId := some "R", body := { status := some "SUCCESSFUL" } }]).2.1
      "R").map Txn.status = some (some "SUCCESSFUL") ∧
    (storeGet (runCallbacks none (fun _ _ => "") "T" .offline []
        [{ headerReferenceId := some "R", body := { status := some "SUCCESSFUL" } },
         { headerReferenceId := some "R", body := { status := some "PENDING" } }]).2.1
      "R").map Txn.status = some (some "PENDING") := by
  constructor
  · decide
  · decide

/-- C2 (code bug evidence): delivering the same terminal callback twice
fires the terminal side-effect hooks twice for the same reference id.
`processSuccessfulPayment` re-runs the confirmation email, inventory
update, loyalty award and fulfillment trigger on every delivery, and
`processFailedPayment` re-runs the failure notification — there is no
persisted already-processed flag anywhere in the code. -/
theorem duplicate_terminal_callback_fires_hooks_twice :
    (((runCallbacks none (fun _ _ => "") "T" .offline []
        [{ headerReferenceId := some "R",
           body := { status := some "SUCCESSFUL" } },
         { headerReferenceId := some "R",
           body := { status := some "SUCCESSFUL" } }]).2.2.filter
      (fun ev => ev == ⟨.confirmEmail, "R"⟩)).length = 2 ∧
     ((runCallbacks none (fun _ _ => "") "T" .offline []
        [{ headerReferenceId := some "R",
           body := { status := some "SUCCESSFUL" } },
         { headerReferenceId := some "R",
           body := { status := some "SUCCESSFUL" } }]).2.2.filter
      (fun ev => ev == ⟨.fulfillment, "R"⟩)).length = 2) ∧
    ((runCallbacks none (fun _ _ => "") "T" .offline []
        [{ headerReferenceId := some "F",
           body := { status := some "FAILED" } },
         { headerReferenceId := some "F",
           body := { status := some "FAILED" } }]).2.2.filter
      (fun ev => ev == ⟨.failNotify, "F"⟩)).length = 2 := by
  exact ⟨⟨by decide, by decide⟩, by decide⟩

/-- C5 (amended): the merge unconditionally overwrites every
callback-named field of the existing record with the extracted inbound
value — including `null` for fields the callback does not carry; only the
fields the merge does not name (orderId, createdAt, processedAt,
lastUpdated, failureReason) keep the values of the existing record. -/
theorem merge_overwrites_every_callback_field (t : Txn) (tid : String)
    (now : String) (e : Extracted) (raw : CallbackBody) :
    (mergeTransaction t tid now e raw).financialTransactionId =
        e.financialTransactionId ∧
    (mergeTransaction t tid now e raw).externalId = e.externalId ∧
    (mergeTransaction t tid now e raw).amount = e.amount ∧
    (mergeTransaction t tid now e raw).currency = e.currency ∧
    (mergeTransaction t tid now e raw).status = e.status ∧
    (mergeTransaction t tid now e raw).payerPhone = e.payerPhone ∧
    (mergeTransaction t tid now e raw).payerIdType = e.payerIdType ∧
    (mergeTransaction t tid now e raw).payeeNote = e.payeeNote ∧
    (mergeTransaction t tid now e raw).payerMessage = e.payerMessage ∧
    (mergeTransaction t tid now e raw).reason = e.reason ∧
    (mergeTransaction t tid now e raw).orderId = t.orderId ∧
    (mergeTransaction t tid now e raw).createdAt = t.createdAt ∧
    (mergeTransaction t tid now e raw).processedAt = t.processedAt ∧
    (mergeTransaction t tid now e raw).lastUpdated = t.lastUpdated ∧
    (mergeTransaction t tid now e raw).failureReason = t.failureReason :=
  ⟨rfl, rfl, rfl, rfl, rfl, rfl, rfl, rfl, rfl, rfl, rfl, rfl, rfl, rfl, rfl⟩

/-- C5 (counterexample): an existing record whose `amount` is populated
(`"100"`), merged with a callback that does not carry an amount: the
populated field is overwritten with null, both at the merge itself and in
the record the route stores. -/
theorem null_inbound_overwrites_populated_amount :
    (mergeTransaction { referenceId := some "R", amount := some "100" } "R" "T"
      (extractCallback (some "R") { status := some "SUCCESSFUL" })
      { status := some "SUCCESSFUL" }).amount = none ∧
    ({ referenceId := some "R", amount := some "100" } : Txn).amount =
      some "100" ∧
    (storeGet (handleCallback none (fun _ _ => "") "T" .offline
        [("R", { referenceId := some "R", amount := some "100",
                 status := some "PENDING" })]
        { headerReferenceId := some "R",
          body := { status := some "SUCCESSFUL" } }).2.2.1 "R").map
      Txn.amount = some none := by
  exact ⟨by decide, rfl, by decide⟩

/-- C6 (amended): the merge always stamps `referenceId` with the resolved
transaction id, whatever the existing record carried — so a callback
resolved through a fallback identifier (externalId or
financialTransactionId) replaces the existing referenceId of the record
with that fallback value. -/
theorem merge_replaces_referenceId_with_resolved_id (t : Txn) (tid : String)
    (now : String) (e : Extracted) (raw : CallbackBody) (r : String)
    (_hdiff : t.referenceId = some r) :
    (mergeTransaction t tid now e raw).referenceId = some tid := rfl

/-- C6 (counterexample): a record initiated with reference id `R` (stored
in the database with external id `E`); a callback arrives carrying only
`externalId = E`.  The route resolves the transaction id to `E`, finds the
database row (whose reference id is `R`), and the merged record it stores
carries `referenceId = E` — the fallback identifier replaced the original
reference id. -/
theorem external_id_callback_replaces_reference_id :
    (storeGet (handleCallback none (fun _ _ => "") "T"
        (.online [{ reference_id := some "R", external_id := some "E",
                    id := some "7" }])
        [] { body := { externalId := some "E",
                       status := some "SUCCESSFUL" } }).2.2.1 "E").map
      Txn.referenceId = some (some "E") ∧
    (some "E" : Option String) ≠ some "R" := by
  exact ⟨by decide, by decide⟩

/-- C7 (code bug evidence): on a concrete caller-supplied `details`, the
`momoService.js` implementation of `requestToPay` sends the caller values,
while the copy embedded in `payment.routes.js` sends the hardcoded amount
`1.00`, currency `USD` and the fixed message `Payment for Litway Picks`;
the two implementations do not build the same request body. -/
theorem routes_requestToPay_hardcodes_amount_currency_message :
    momoServiceRequestToPayBody
        { amount := "100", currency := "LRD", process_id := "ORDER-1",
          phone_no := "231770123456", message := "Thanks for shopping" } =
      { amount := "100", currency := "LRD", externalId := "ORDER-1",
        partyIdType := "MSISDN", partyId := "231770123456",
        payerMessage := "Thanks for shopping",
        payeeNote := "Thanks for shopping" } ∧
    paymentRoutesRequestToPayBody
        { amount := "100", currency := "LRD", process_id := "ORDER-1",
          phone_no := "231770123456", message := "Thanks for shopping" } =
      { amount := "1.00", currency := "USD", externalId := "ORDER-1",
        partyIdType := "MSISDN", partyId := "231770123456",
        payerMessage := "Payment for Litway Picks",
        payeeNote := "Payment for Litway Picks" } ∧
    paymentRoutesRequestToPayBody
        { amount := "100", currency := "LRD", process_id := "ORDER-1",
          phone_no := "231770123456", message := "Thanks for shopping" } ≠
      momoServiceRequestToPayBody
        { amount := "100", currency := "LRD", process_id := "ORDER-1",
          phone_no := "231770123456", message := "Thanks for shopping" } := by
  exact ⟨by decide, by decide, by decide⟩

theorem orNull_of_truthy {a : Option String} (h : truthy a = true) :
    orNull a = a := by
  unfold orNull
  simp [h]

/-- Modelled from the wording of the specification: the identifier is the
first present (truthy) value among the `X-Reference-Id` header, the body
`referenceId`, the body `externalId` and the body
`financialTransactionId`.  This is the comparison point for the
resolution order implemented by `resolveTransactionId`. -/
def firstPresentIdentifier (hdr : Option String) (b : CallbackBody) :
    Option String :=
  if truthy hdr then hdr
  else if truthy b.referenceId then b.referenceId
  else if truthy b.externalId then b.externalId
  else if truthy b.financialTransactionId then b.financialTransactionId
  else none

theorem resolveTransactionId_eq_firstPresent (hdr : Option String)
    (b : CallbackBody) :
    resolveTransactionId hdr b = firstPresentIdentifier hdr b := by
  have e_ref : (extractCallback hdr b).referenceId =
      jsOr hdr (jsOr b.referenceId (orNull b.externalId)) := rfl
  have e_ext : (extractCallback hdr b).externalId = orNull b.externalId := rfl
  have e_fti : (extractCallback hdr b).financialTransactionId =
      orNull b.financialTransactionId := rfl
  simp only [resolveTransactionId, firstPresentIdentifier, e_ref, e_ext, e_fti]
  by_cases h1 : truthy hdr = true
  · rw [jsOr_of_truthy _ h1, jsOr_of_truthy _ h1, if_pos h1]
  · rw [Bool.not_eq_true] at h1
    rw [jsOr_of_not_truthy _ h1, if_neg (by simp [h1])]
    by_cases h2 : truthy b.referenceId = true
    · rw [jsOr_of_truthy _ h2, jsOr_of_truthy _ h2, if_pos h2]
    · rw [Bool.not_eq_true] at h2
      rw [jsOr_of_not_truthy _ h2, if_neg (by simp [h2])]
      by_cases h3 : truthy b.externalId = true
      · rw [orNull_of_truthy h3, jsOr_of_truthy _ h3, if_pos h3]
      · rw [Bool.not_eq_true] at h3
        rw [orNull_eq_none_of_not_truthy h3, if_neg (by simp [h3])]
        rw [jsOr_of_not_truthy _ (show truthy none = false from rfl),
          jsOr_of_not_truthy _ (show truthy none = false from rfl)]
        by_cases h4 : truthy b.financialTransactionId = true
        · rw [orNull_of_truthy h4, if_pos h4]
        · rw [Bool.not_eq_true] at h4
          rw [orNull_eq_none_of_not_truthy h4, if_neg (by simp [h4])]

/-- The route answers 400 exactly when no identifier resolves. -/
theorem handleCallback_badRequest_iff (secret : Option String)
    (hmacHex : String → CallbackBody → String) (now : String) (db : DbState)
    (store : Store) (req : CallbackRequest) :
    (handleCallback secret hmacHex now db store req).1 = .badRequest ↔
      resolveTransactionId req.headerReferenceId req.body = none := by
  cases hg : (!(truthy (extractCallback req.headerReferenceId req.body).referenceId) &&
      !(truthy (extractCallback req.headerReferenceId req.body).externalId) &&
      !(truthy (extractCallback req.headerReferenceId req.body).financialTransactionId)) with
  | true =>
    constructor
    · intro _
      exact (resolveTransactionId_eq_none_iff _ _).mpr hg
    · intro _
      unfold handleCallback
      simp [hg]
  | false =>
    constructor
    · intro h
      exfalso
      unfold handleCallback at h
      simp only [hg, Bool.false_eq_true, if_false] at h
      split at h
      · simp at h
      · simp at h
      · split at h
        · simp at h
        · split at h
          · simp at h
          · simp at h
    · intro h
      exact absurd ((resolveTransactionId_eq_none_iff _ _).mp h) (by simp [hg])

/-- Every response of the callback route is a 400, a 401 produced by a
signature-gate rejection, or a 200. -/
theorem handleCallback_fst (secret : Option String)
    (hmacHex : String → CallbackBody → String) (now : String) (db : DbState)
    (store : Store) (req : CallbackRequest) :
    (handleCallback secret hmacHex now db store req).1 = .badRequest ∨
    ((handleCallback secret hmacHex now db store req).1 = .unauthorized ∧
      signatureGate hmacHex secret req = .ok false) ∨
    ∃ b, (handleCallback secret hmacHex now db store req).1 = .ok b := by
  unfold handleCallback
  simp only []
  split
  · left; rfl
  · right
    split
    · right; exact ⟨false, rfl⟩
    · rename_i heq
      left
      exact ⟨rfl, heq⟩
    · right
      split
      · exact ⟨false, rfl⟩
      · split
        · exact ⟨false, rfl⟩
        · exact ⟨true, rfl⟩

/-- The signature gate rejects only when both the secret and the signature
header are truthy. -/
theorem signatureGate_configured_of_ok_false
    (hmacHex : String → CallbackBody → String) (secret : Option String)
    (req : CallbackRequest)
    (h : signatureGate hmacHex secret req = .ok false) :
    truthy secret = true ∧ truthy req.headerSignature = true := by
  by_contra hc
  unfold signatureGate at h
  rw [if_neg (by
    intro hcc
    rw [Bool.and_eq_true] at hcc
    exact hc hcc)] at h
  exact absurd h (by simp)

/-- The route answers 401 only when a secret is configured and a signature
header is present. -/
theorem handleCallback_unauthorized_implies (secret : Option String)
    (hmacHex : String → CallbackBody → String) (now : String) (db : DbState)
    (store : Store) (req : CallbackRequest)
    (h : (handleCallback secret hmacHex now db store req).1 = .unauthorized) :
    truthy secret = true ∧ truthy req.headerSignature = true := by
  rcases handleCallback_fst secret hmacHex now db store req with
    hb | ⟨_, hgf⟩ | ⟨b, hok⟩
  · rw [h] at hb
    exact CallbackResponse.noConfusion hb
  · exact signatureGate_configured_of_ok_false hmacHex secret req hgf
  · rw [h] at hok
    exact CallbackResponse.noConfusion hok

/-- C3: the transaction is keyed by the first present identifier among the
`X-Reference-Id` header, body `referenceId`, body `externalId` and body
`financialTransactionId`; `POST /callback` answers 400 exactly when none
of them is present; and the only other caller-facing rejection is the 401
answered when a callback secret is configured and a signature header is
presented. -/
theorem callback_identifier_resolution_and_validation :
    (∀ (hdr : Option String) (b : CallbackBody),
      resolveTransactionId hdr b = firstPresentIdentifier hdr b) ∧
    (∀ (secret : Option String) (hmacHex : String → CallbackBody → String)
        (now : String) (db : DbState) (store : Store) (req : CallbackRequest),
      ((handleCallback secret hmacHex now db store req).1 = .badRequest ↔
        resolveTransactionId req.headerReferenceId req.body = none) ∧
      ((handleCallback secret hmacHex now db store req).1 = .unauthorized →
        truthy secret = true ∧ truthy req.headerSignature = true)) :=
  ⟨resolveTransactionId_eq_firstPresent,
   fun secret hmacHex now db store req =>
    ⟨handleCallback_badRequest_iff secret hmacHex now db store req,
     handleCallback_unauthorized_implies secret hmacHex now db store req⟩⟩

/-- A 64-character signature header value, the length of an HMAC-SHA256
hex digest (so `timingSafeEqual` compares rather than throws). -/
def hexA64 : String := String.mk (List.replicate 64 'a')

/-- A different 64-character hex digest. -/
def hexZero64 : String := String.mk (List.replicate 64 '0')

/-- A digest function (model parameter) returning a fixed 64-character
digest. -/
def hmacZero64 : String → CallbackBody → String := fun _ _ => hexZero64

/-- C3 (counterexample): a callback that carries an identifier
(`externalId = ORDER-1`) is rejected with 401 when a callback secret is
configured and the `x-momo-signature` header fails verification — so the
400 for missing identifiers is not the only caller-facing validation
failure. -/
theorem invalid_signature_answered_401 :
    (handleCallback (some "cbsecret") hmacZero64 "T" .offline []
      { headerSignature := some hexA64,
        body := { externalId := some "ORDER-1" } }).1 = .unauthorized ∧
    CallbackResponse.unauthorized ≠ .badRequest ∧
    CallbackResponse.unauthorized ≠ .ok true ∧
    CallbackResponse.unauthorized ≠ .ok false := by
  exact ⟨by decide, by decide, by decide, by decide⟩

/-- Witness: the 401-implies-configured part of C3 applied at a concrete
rejected request. -/
theorem callback_identifier_resolution_witness :
    truthy (some "cbsecret") = true ∧ truthy (some hexA64) = true :=
  (callback_identifier_resolution_and_validation.2 (some "cbsecret")
    hmacZero64 "T" .offline []
    { headerSignature := some hexA64,
      body := { externalId := some "ORDER-1" } }).2 (by decide)

/-- C4 (amended): whenever an identifier resolves and the signature gate
does not reject, `POST /callback` answers HTTP 200 — with `success:false`
when the processing path throws, as it does whenever the database client
is broken and the transaction is not in the in-memory store. -/
theorem callback_answers_200_unless_signature_rejected
    (secret : Option String) (hmacHex : String → CallbackBody → String)
    (now : String) (db : DbState) (store : Store) (req : CallbackRequest)
    (hid : resolveTransactionId req.headerReferenceId req.body ≠ none)
    (hsig : signatureGate hmacHex secret req ≠ .ok false) :
    (∃ b, (handleCallback secret hmacHex now db store req).1 = .ok b) ∧
    (db = .broken →
      storeGet store
        ((resolveTransactionId req.headerReferenceId req.body).getD "") =
        none →
      (handleCallback secret hmacHex now db store req).1 = .ok false) := by
  constructor
  · rcases handleCallback_fst secret hmacHex now db store req with
      hb | ⟨_, hgf⟩ | h
    · exact absurd ((handleCallback_badRequest_iff _ _ _ _ _ _).mp hb) hid
    · exact absurd hgf hsig
    · exact h
  · intro hdb hmiss
    subst hdb
    have hguard : (!(truthy (extractCallback req.headerReferenceId req.body).referenceId) &&
        !(truthy (extractCallback req.headerReferenceId req.body).externalId) &&
        !(truthy (extractCallback req.headerReferenceId req.body).financialTransactionId)) = false := by
      cases hg : (!(truthy (extractCallback req.headerReferenceId req.body).referenceId) &&
          !(truthy (extractCallback req.headerReferenceId req.body).externalId) &&
          !(truthy (extractCallback req.headerReferenceId req.body).financialTransactionId)) with
      | false => rfl
      | true => exact absurd ((resolveTransactionId_eq_none_iff _ _).mpr hg) hid
    have hlk : lookupTransaction now .broken store
        ((resolveTransactionId req.headerReferenceId req.body).getD "")
        (extractCallback req.headerReferenceId req.body).externalId =
        .error () := by
      unfold lookupTransaction
      rw [hmiss]
    cases hsg : signatureGate hmacHex secret req with
    | error u =>
      unfold handleCallback
      simp only [hguard, Bool.false_eq_true, if_false, hsg]
    | ok bv =>
      cases bv with
      | false => exact absurd hsg hsig
      | true =>
        unfold handleCallback
        simp only [hguard, Bool.false_eq_true, if_false, hsg, hlk]

/-- Witness: C4 applied to a broken database client with an empty
in-memory store — the response is still 200. -/
theorem callback_200_witness :
    (∃ b, (handleCallback none (fun _ _ => "") "T" .broken []
      { headerReferenceId := some "W",
        body := { status := some "SUCCESSFUL" } }).1 = .ok b) ∧
    (DbState.broken = .broken →
      storeGet []
        ((resolveTransactionId (some "W")
          { status := some "SUCCESSFUL" }).getD "") = none →
      (handleCallback none (fun _ _ => "") "T" .broken []
        { headerReferenceId := some "W",
          body := { status := some "SUCCESSFUL" } }).1 = .ok false) :=
  callback_answers_200_unless_signature_rejected none (fun _ _ => "") "T"
    .broken []
    { headerReferenceId := some "W", body := { status := some "SUCCESSFUL" } }
    (by decide) (by decide)

/-- C4 (counterexample): a syntactically valid body with an identifier
field is nevertheless answered 401 (not 200) when a configured secret and
a presented signature header fail verification. -/
theorem identifier_present_but_401_on_bad_signature :
    (handleCallback (some "hooksecret") hmacZero64 "T" .offline []
      { headerSignature := some hexA64,
        body := { referenceId := some "R9",
                  status := some "SUCCESSFUL" } }).1 = .unauthorized ∧
    CallbackResponse.unauthorized ≠ .ok true ∧
    CallbackResponse.unauthorized ≠ .ok false := by
  exact ⟨by decide, by decide, by decide⟩

theorem statusAfterDbCheck_notFound_iff (db : DbState) (cache : Store)
    (remote : Option RemoteTxn) (now rid : String) :
    (statusAfterDbCheck db cache true remote now rid).1 = .notFound ↔
      (remote = none ∧ storeGet cache rid = none) := by
  unfold statusAfterDbCheck
  cases remote with
  | none =>
    cases hc : storeGet cache rid with
    | none => simp [hc]
    | some c => simp [hc]
  | some txn => simp

/-- C9 (amended): with a reachable token endpoint and a working (or
absent) database client, `GET /status/:referenceId` answers 404 exactly
when the remote API has no record, the cache has no entry, AND the
persistent store has no single row for the reference id in a terminal
payment status — a store row in a non-terminal status does not prevent
the 404. -/
theorem status_404_iff_no_source_has_terminal_view
    (db : DbState) (cache : Store) (remote : Option RemoteTxn)
    (now rid : String) (hdb : db ≠ .broken) :
    (statusRoute db cache true remote now rid).1 = .notFound ↔
      (dbTerminalHit db rid = false ∧ remote = none ∧
        storeGet cache rid = none) := by
  cases db with
  | broken => exact absurd rfl hdb
  | offline =>
    unfold statusRoute dbTerminalHit
    rw [statusAfterDbCheck_notFound_iff]
    simp
  | online orders =>
    unfold statusRoute dbTerminalHit
    cases hf : dbFindSingleByRef orders rid with
    | none =>
      simp only [hf]
      rw [statusAfterDbCheck_notFound_iff]
      simp
    | some o =>
      by_cases ht : (o.payment_status == some "SUCCESSFUL" ||
          o.payment_status == some "FAILED") = true
      · simp [hf, ht]
      · simp only [hf, Bool.not_eq_true] at ht ⊢
        rw [ht]
        simp only [Bool.false_eq_true, if_false]
        rw [statusAfterDbCheck_notFound_iff]
        simp

/-- Witness: C9 (amended) applied at a reference id absent from every
source — the route answers 404. -/
theorem status_404_witness :
    (statusRoute .offline [] true none "T" "X").1 = .notFound :=
  (status_404_iff_no_source_has_terminal_view .offline [] none "T" "X"
    (by decide)).mpr ⟨rfl, rfl, rfl⟩

/-- C9 (counterexample): the persistent store does have a (single) row for
reference id `R`, but in the non-terminal status `PENDING`; the cache and
the remote API do not have the record — and the route answers 404, even
though a source has the record. -/
theorem pending_db_record_polled_404 :
    (statusRoute
      (.online [{ reference_id := some "R",
                  payment_status := some "PENDING" }]) [] true none "T"
      "R").1 = .notFound ∧
    dbFindSingleByRef
        [{ reference_id := some "R", payment_status := some "PENDING" }]
        "R" =
      some { reference_id := some "R", payment_status := some "PENDING" } := by
  exact ⟨by decide, by decide⟩

theorem signatureGate_skip (hmacHex : String → CallbackBody → String)
    (secret : Option String) (req : CallbackRequest)
    (h : ¬(truthy secret = true ∧ truthy req.headerSignature = true)) :
    signatureGate hmacHex secret req = .ok true := by
  unfold signatureGate
  rw [if_neg (by
    intro hcc
    rw [Bool.and_eq_true] at hcc
    exact h hcc)]

/-- C10: signature verification is skipped whenever the signature header
or the configured secret is missing: `verifyCallbackSignature` accepts in
that case, and the route then behaves identically for every digest
function — callbacks are processed without any authentication by
default. -/
theorem signature_verification_skipped_when_unconfigured :
    (∀ (hmacHex : String → CallbackBody → String) (payload : CallbackBody)
        (signature secret : Option String),
      truthy signature = false ∨ truthy secret = false →
      verifyCallbackSignature hmacHex payload signature secret = .ok true) ∧
    (∀ (hmacHex hmacHex' : String → CallbackBody → String)
        (secret : Option String) (now : String) (db : DbState)
        (store : Store) (req : CallbackRequest),
      ¬(truthy secret = true ∧ truthy req.headerSignature = true) →
      handleCallback secret hmacHex now db store req =
        handleCallback secret hmacHex' now db store req) := by
  constructor
  · intro hmacHex payload signature secret h
    unfold verifyCallbackSignature
    rw [if_pos (by rcases h with h | h <;> simp [h])]
  · intro hmacHex hmacHex' secret now db store req h
    unfold handleCallback
    rw [signatureGate_skip hmacHex secret req h,
      signatureGate_skip hmacHex' secret req h]

/-- Witness: the skip clause of C10 at a concrete configuration with a
secret but no signature header. -/
theorem signature_skip_witness :
    verifyCallbackSignature hmacZero64 {} none (some "cbs2") = .ok true :=
  signature_verification_skipped_when_unconfigured.1 hmacZero64 {} none
    (some "cbs2") (Or.inl rfl)

/-- Witness: the amended C6 theorem at a record whose referenceId is `R`,
merged under the resolved id `E`. -/
theorem merge_replaces_referenceId_witness :
    (mergeTransaction { referenceId := some "R" } "E" "T"
      (extractCallback none { externalId := some "E" })
      { externalId := some "E" }).referenceId = some "E" :=
  merge_replaces_referenceId_with_resolved_id { referenceId := some "R" }
    "E" "T" (extractCallback none { externalId := some "E" })
    { externalId := some "E" } "R" rfl
